import Mathlib

/-!
Verification of the secrets-vault repository (yksanjo/secrets-vault).

The development shallowly embeds the two core modules:
* `src/utils/crypto.js` — AES-256-CTR encryption/decryption with a random
  IV prefixed to the ciphertext and base64 transport encoding.  Bytes are
  modelled as natural numbers below 256; the AES block transformation is a
  parameter (`cipher`), since every property proved here holds for an
  arbitrary block function.  Randomness (the IV) and key derivation are
  externalised as explicit inputs.
* `src/storage/vault.js` — the vault engine: lock gating, CRUD on the
  in-memory record set, search/expiry queries, export/import, and the
  persisted file (modelled as an `Option VaultData` component of the state).
-/

/-! ## Base64 transport encoding (Buffer.toString base64 / Buffer.from base64) -/

/-- The standard base64 alphabet used by Node `Buffer`. -/
def b64Chars : List Char :=
  "ABCDEFGHIJKLMNOPQRSTUVWXYZabcdefghijklmnopqrstuvwxyz0123456789+/".toList

/-- Character for a 6-bit group. -/
def b64Char (i : Nat) : Char := b64Chars.getD i 'A'

/-- Index of a base64 character in the alphabet. -/
def b64Index (c : Char) : Nat := b64Chars.indexOf c

/-- Encode a byte list to base64 characters, with `=` padding, as
`Buffer.prototype.toString('base64')` does. -/
def b64Encode : List Nat → List Char
  | a :: b :: c :: rest =>
      b64Char (a / 4) :: b64Char (a % 4 * 16 + b / 16) ::
      b64Char (b % 16 * 4 + c / 64) :: b64Char (c % 64) :: b64Encode rest
  | [a, b] => [b64Char (a / 4), b64Char (a % 4 * 16 + b / 16), b64Char (b % 16 * 4), '=']
  | [a] => [b64Char (a / 4), b64Char (a % 4 * 16), '=', '=']
  | [] => []

/-- Decode base64 characters back to bytes, honouring `=` padding, as
`Buffer.from(s, 'base64')` does on well-formed input. -/
def b64Decode : List Char → List Nat
  | c1 :: c2 :: c3 :: c4 :: rest =>
      if c3 = '=' then [b64Index c1 * 4 + b64Index c2 / 16]
      else if c4 = '=' then
        [b64Index c1 * 4 + b64Index c2 / 16, b64Index c2 % 16 * 16 + b64Index c3 / 4]
      else
        (b64Index c1 * 4 + b64Index c2 / 16) ::
        (b64Index c2 % 16 * 16 + b64Index c3 / 4) ::
        (b64Index c3 % 4 * 64 + b64Index c4) ::
        b64Decode rest
  | _ => []

theorem b64Index_b64Char : ∀ i < 64, b64Index (b64Char i) = i := by decide

theorem b64Char_ne_pad : ∀ i < 64, b64Char i ≠ '=' := by decide

/-- Decoding inverts encoding on byte lists. -/
theorem b64Decode_b64Encode : ∀ (l : List Nat), (∀ x ∈ l, x < 256) →
    b64Decode (b64Encode l) = l
  | a :: b :: c :: rest, h => by
      have ha : a < 256 := h a (by simp)
      have hb : b < 256 := h b (by simp)
      have hc : c < 256 := h c (by simp)
      have h1 : a / 4 < 64 := by omega
      have h2 : a % 4 * 16 + b / 16 < 64 := by omega
      have h3 : b % 16 * 4 + c / 64 < 64 := by omega
      have h4 : c % 64 < 64 := by omega
      have ih := b64Decode_b64Encode rest (fun x hx => h x (by simp [hx]))
      simp only [b64Encode, b64Decode, if_neg (b64Char_ne_pad _ h3),
        if_neg (b64Char_ne_pad _ h4),
        b64Index_b64Char _ h1, b64Index_b64Char _ h2,
        b64Index_b64Char _ h3, b64Index_b64Char _ h4, ih, List.cons.injEq,
        and_true]
      refine ⟨by omega, by omega, by omega⟩
  | [a, b], h => by
      have ha : a < 256 := h a (by simp)
      have hb : b < 256 := h b (by simp)
      have h1 : a / 4 < 64 := by omega
      have h2 : a % 4 * 16 + b / 16 < 64 := by omega
      have h3 : b % 16 * 4 < 64 := by omega
      simp only [b64Encode, b64Decode, if_neg (b64Char_ne_pad _ h3),
        eq_self_iff_true, if_true,
        b64Index_b64Char _ h1, b64Index_b64Char _ h2, b64Index_b64Char _ h3,
        List.cons.injEq, and_true]
      omega
  | [a], h => by
      have ha : a < 256 := h a (by simp)
      have h1 : a / 4 < 64 := by omega
      have h2 : a % 4 * 16 < 64 := by omega
      simp only [b64Encode, b64Decode, eq_self_iff_true, if_true,
        b64Index_b64Char _ h1, b64Index_b64Char _ h2, List.cons.injEq, and_true]
      omega
  | [], _ => by simp [b64Encode, b64Decode]

/-- Encoding is injective on byte lists. -/
theorem b64Encode_injOn {l1 l2 : List Nat} (h1 : ∀ x ∈ l1, x < 256)
    (h2 : ∀ x ∈ l2, x < 256) (h : b64Encode l1 = b64Encode l2) : l1 = l2 := by
  have := congrArg b64Decode h
  rwa [b64Decode_b64Encode l1 h1, b64Decode_b64Encode l2 h2] at this

/-! ## Crypto module (`src/utils/crypto.js`)

`encrypt`/`decrypt` use AES-256-CTR via aes-js: the keystream is the block
cipher applied to a 16-byte big-endian counter that starts at the IV value
and increments per block; each data byte is XORed with the corresponding
keystream byte.  The block transformation is kept as a parameter
`cipher : List Nat → List Nat → List Nat` (key and counter block to
keystream block). -/

namespace Crypto

/-- Model of `this.ivLength` — 128-bit IV. -/
def ivLength : Nat := 16

/-- Big-endian bytes of a counter value (`k` bytes, low `8*k` bits of `n`),
as maintained by `aesjs.Counter`. -/
def beBytes : Nat → Nat → List Nat
  | 0, _ => []
  | k + 1, n => beBytes k (n / 256) ++ [n % 256]

/-- Numeric value of a big-endian byte list (the counter start value held
in the IV bytes). -/
def beVal (l : List Nat) : Nat := l.foldl (fun acc b => acc * 256 + b) 0

/-- Byte `i` of the CTR keystream for the given key and IV: block `i / 16`
of the counter sequence, byte `i % 16` within it. -/
def ctrKeystream (cipher : List Nat → List Nat → List Nat)
    (key iv : List Nat) (i : Nat) : Nat :=
  (cipher key (beBytes 16 (beVal iv + i / 16))).getD (i % 16) 0

/-- XOR a byte list against the CTR keystream — the core of both
`aesCtr.encrypt` and `aesCtr.decrypt` (identical operations in CTR mode). -/
def ctrCrypt (cipher : List Nat → List Nat → List Nat)
    (key iv data : List Nat) : List Nat :=
  (List.range data.length).map (fun i => data.getD i 0 ^^^ ctrKeystream cipher key iv i)

/-- Model of `Crypto.encrypt(plaintext, key)`: XOR with a fresh-IV keystream, prefix
the IV, base64-encode.  The plaintext is its UTF-8 byte list; the random IV
is an explicit input. -/
def encrypt (cipher : List Nat → List Nat → List Nat)
    (plaintext key iv : List Nat) : String :=
  (b64Encode (iv ++ ctrCrypt cipher key iv plaintext)).asString

/-- Model of `Crypto.decrypt(ciphertext, key)`: base64-decode, split off the leading
16 IV bytes, XOR the rest with the keystream.  The result is the UTF-8 byte
list of the returned string. -/
def decrypt (cipher : List Nat → List Nat → List Nat)
    (ciphertext : String) (key : List Nat) : List Nat :=
  let combined := b64Decode ciphertext.toList
  let iv := combined.take ivLength
  let encryptedBytes := combined.drop ivLength
  ctrCrypt cipher key iv encryptedBytes

/-- The map `ctrCrypt` preserves length. -/
theorem ctrCrypt_length (cipher : List Nat → List Nat → List Nat)
    (key iv data : List Nat) :
    (ctrCrypt cipher key iv data).length = data.length := by
  simp [ctrCrypt]

/-- In CTR mode, applying the keystream twice with the same key and IV
returns the original data (XOR involution). -/
theorem ctrCrypt_ctrCrypt (cipher : List Nat → List Nat → List Nat)
    (key iv data : List Nat) :
    ctrCrypt cipher key iv (ctrCrypt cipher key iv data) = data := by
  apply List.ext_getElem
  · simp [ctrCrypt]
  · intro i h1 h2
    have hlen : (ctrCrypt cipher key iv data).length = data.length :=
      ctrCrypt_length cipher key iv data
    simp only [ctrCrypt, hlen, List.getElem_map, List.getElem_range]
    rw [List.getD_eq_getElem _ _ (by simpa [ctrCrypt] using h2)]
    simp only [ctrCrypt, List.getElem_map, List.getElem_range]
    rw [List.getD_eq_getElem _ _ h2, Nat.xor_assoc, Nat.xor_self, Nat.xor_zero]

/-- Keystream-XORed bytes stay below 256 when the data bytes and the block
function outputs do. -/
theorem ctrCrypt_lt_256 (cipher : List Nat → List Nat → List Nat)
    (key iv data : List Nat)
    (hdata : ∀ x ∈ data, x < 256)
    (hcipher : ∀ k blk x, x ∈ cipher k blk → x < 256) :
    ∀ x ∈ ctrCrypt cipher key iv data, x < 256 := by
  intro x hx
  simp only [ctrCrypt, List.mem_map, List.mem_range] at hx
  obtain ⟨i, hi, rfl⟩ := hx
  have hd : data.getD i 0 < 256 := by
    rw [List.getD_eq_getElem _ _ hi]
    exact hdata _ (List.getElem_mem _)
  have hk : ctrKeystream cipher key iv i < 256 := by
    unfold ctrKeystream
    by_cases h : i % 16 < (cipher key (beBytes 16 (beVal iv + i / 16))).length
    · rw [List.getD_eq_getElem _ _ h]
      exact hcipher _ _ _ (List.getElem_mem _)
    · rw [List.getD_eq_default _ _ (by omega)]
      omega
  calc data.getD i 0 ^^^ ctrKeystream cipher key iv i
      < 2 ^ 8 := Nat.xor_lt_two_pow hd hk
    _ = 256 := rfl

/-- Decrypting with the key and ciphertext produced by `encrypt` recovers
the plaintext bytes (helper for the round-trip claim). -/
theorem decrypt_encrypt (cipher : List Nat → List Nat → List Nat)
    (plaintext key iv : List Nat)
    (hp : ∀ x ∈ plaintext, x < 256)
    (hiv : iv.length = ivLength)
    (hivb : ∀ x ∈ iv, x < 256)
    (hcipher : ∀ k blk x, x ∈ cipher k blk → x < 256) :
    decrypt cipher (encrypt cipher plaintext key iv) key = plaintext := by
  have hcomb : ∀ x ∈ iv ++ ctrCrypt cipher key iv plaintext, x < 256 := by
    intro x hx
    rcases List.mem_append.mp hx with h | h
    · exact hivb x h
    · exact ctrCrypt_lt_256 cipher key iv plaintext hp hcipher x h
  unfold decrypt encrypt
  have hstr : ((b64Encode (iv ++ ctrCrypt cipher key iv plaintext)).asString).toList
      = b64Encode (iv ++ ctrCrypt cipher key iv plaintext) := rfl
  rw [hstr, b64Decode_b64Encode _ hcomb]
  have htake : (iv ++ ctrCrypt cipher key iv plaintext).take ivLength = iv := by
    rw [← hiv]; exact List.take_left iv _
  have hdrop : (iv ++ ctrCrypt cipher key iv plaintext).drop ivLength
      = ctrCrypt cipher key iv plaintext := by
    rw [← hiv]; exact List.drop_left iv _
  show ctrCrypt cipher key ((iv ++ ctrCrypt cipher key iv plaintext).take ivLength)
      ((iv ++ ctrCrypt cipher key iv plaintext).drop ivLength) = plaintext
  rw [htake, hdrop, ctrCrypt_ctrCrypt]

end Crypto

/-- C1: for every plaintext (as its UTF-8 byte list), passphrase and salt,
decrypting the result of encrypting the plaintext under the key derived
from that passphrase and salt, with that same key, returns the original
plaintext — for every key-derivation function, every AES block function
producing bytes, and every 16-byte random IV draw. -/
theorem claim_c1_encrypt_decrypt_roundtrip
    (cipher : List Nat → List Nat → List Nat)
    (kdf : String → String → List Nat) (passphrase salt : String)
    (plaintext iv : List Nat)
    (hp : ∀ x ∈ plaintext, x < 256)
    (hiv : iv.length = Crypto.ivLength)
    (hivb : ∀ x ∈ iv, x < 256)
    (hcipher : ∀ k blk x, x ∈ cipher k blk → x < 256) :
    Crypto.decrypt cipher
      (Crypto.encrypt cipher plaintext (kdf passphrase salt) iv)
      (kdf passphrase salt) = plaintext :=
  Crypto.decrypt_encrypt cipher plaintext (kdf passphrase salt) iv hp hiv hivb hcipher

/-- Witness for C1 at concrete inputs: a two-byte plaintext, a constant
block function, a constant key-derivation function and the all-zero IV. -/
theorem claim_c1_encrypt_decrypt_roundtrip_witness :
    Crypto.decrypt (fun _ _ => List.replicate 16 7)
      (Crypto.encrypt (fun _ _ => List.replicate 16 7) [104, 105]
        ((fun _ _ => [33, 44]) "pw" "aabb") (List.replicate 16 0))
      ((fun _ _ => [33, 44]) "pw" "aabb") = [104, 105] :=
  claim_c1_encrypt_decrypt_roundtrip (fun _ _ => List.replicate 16 7)
    (fun _ _ => [33, 44]) "pw" "aabb" [104, 105] (List.replicate 16 0)
    (by decide) (by decide) (by decide)
    (fun k blk x hx => by
      rcases List.eq_of_mem_replicate hx with rfl
      omega)

/-- C5 counterexample: the claim as stated — any two `encrypt` calls with
the same key and plaintext produce different ciphertexts — fails in the
embedding where each call's random 128-bit IV draw is an explicit input:
nothing in the code prevents the two draws from colliding, and when they
do the outputs are identical.  Shown false at a concrete colliding draw. -/
theorem claim_c5_counterexample :
    ¬ (∀ iv1 iv2 : List Nat, iv1.length = Crypto.ivLength →
        iv2.length = Crypto.ivLength →
        Crypto.encrypt (fun _ _ => List.replicate 16 7) [104] [1] iv1 ≠
        Crypto.encrypt (fun _ _ => List.replicate 16 7) [104] [1] iv2) := by
  intro h
  exact h (List.replicate 16 0) (List.replicate 16 0) (by decide) (by decide) rfl

/-- C5 amended: two `encrypt` calls with the same key and the same
plaintext whose random IV draws are distinct produce distinct ciphertexts
(the IV is a prefix of the output); since each call draws a fresh uniform
128-bit IV, a collision has negligible probability but is not impossible. -/
theorem claim_c5_distinct_iv_distinct_ciphertext
    (cipher : List Nat → List Nat → List Nat)
    (key plaintext iv1 iv2 : List Nat)
    (hp : ∀ x ∈ plaintext, x < 256)
    (h1 : iv1.length = Crypto.ivLength) (h2 : iv2.length = Crypto.ivLength)
    (hb1 : ∀ x ∈ iv1, x < 256) (hb2 : ∀ x ∈ iv2, x < 256)
    (hcipher : ∀ k blk x, x ∈ cipher k blk → x < 256)
    (hne : iv1 ≠ iv2) :
    Crypto.encrypt cipher plaintext key iv1 ≠
    Crypto.encrypt cipher plaintext key iv2 := by
  intro h
  apply hne
  have hc1 : ∀ x ∈ iv1 ++ Crypto.ctrCrypt cipher key iv1 plaintext, x < 256 := by
    intro x hx
    rcases List.mem_append.mp hx with hx | hx
    · exact hb1 x hx
    · exact Crypto.ctrCrypt_lt_256 cipher key iv1 plaintext hp hcipher x hx
  have hc2 : ∀ x ∈ iv2 ++ Crypto.ctrCrypt cipher key iv2 plaintext, x < 256 := by
    intro x hx
    rcases List.mem_append.mp hx with hx | hx
    · exact hb2 x hx
    · exact Crypto.ctrCrypt_lt_256 cipher key iv2 plaintext hp hcipher x hx
  have hlists : b64Encode (iv1 ++ Crypto.ctrCrypt cipher key iv1 plaintext)
      = b64Encode (iv2 ++ Crypto.ctrCrypt cipher key iv2 plaintext) :=
    congrArg String.toList h
  have heq := b64Encode_injOn hc1 hc2 hlists
  have ht1 : (iv1 ++ Crypto.ctrCrypt cipher key iv1 plaintext).take Crypto.ivLength
      = iv1 := by rw [← h1]; exact List.take_left _ _
  have ht2 : (iv2 ++ Crypto.ctrCrypt cipher key iv2 plaintext).take Crypto.ivLength
      = iv2 := by rw [← h2]; exact List.take_left _ _
  rw [← ht1, ← ht2, heq]

/-- Witness for the amended C5 at concrete distinct IV draws. -/
theorem claim_c5_distinct_iv_distinct_ciphertext_witness :
    Crypto.encrypt (fun _ _ => List.replicate 16 7) [104] [1] (List.replicate 16 0) ≠
    Crypto.encrypt (fun _ _ => List.replicate 16 7) [104] [1] (List.replicate 16 1) :=
  claim_c5_distinct_iv_distinct_ciphertext (fun _ _ => List.replicate 16 7)
    [1] [104] (List.replicate 16 0) (List.replicate 16 1)
    (by decide) (by decide) (by decide) (by decide) (by decide)
    (fun k blk x hx => by
      rcases List.eq_of_mem_replicate hx with rfl
      omega)
    (by decide)

/-! ## Vault engine (`src/storage/vault.js`)

Timestamps (`new Date().toISOString()`) are modelled as naturals (epoch
milliseconds); ISO-8601 strings of valid dates compare identically and are
always truthy, so `!secret.expiresAt` is `Option.isNone`.  The per-call
randomness (fresh id, IV inside `crypto.encrypt`) and the derived key are
explicit inputs: `encryptFn`/`hashFn`/`decryptFn` stand for
`crypto.encrypt(·, this.encryptionKey)` (with that call's IV draw),
`crypto.hash` and `crypto.decrypt(·, this.encryptionKey)`.  The persisted
file `vault.json` is the `file` component of the state; `save` copies the
in-memory data into it.  JSON serialisation in `exportVault`/`importVault`
is modelled by the `VaultData` value itself (`JSON.parse ∘ JSON.stringify`
is the identity on these records). -/

/-- One secret record, as stored in `this.data.secrets`. -/
structure Secret where
  id : String
  name : String
  «type» : String
  value : String
  valueHash : String
  createdAt : Nat
  updatedAt : Nat
  expiresAt : Option Nat
  metadata : List (String × String)
  tags : List String
  notes : String
deriving Repr, DecidableEq, Inhabited

/-- Model of `this.data.metadata`. -/
structure VaultMetadata where
  createdAt : Option Nat
  updatedAt : Option Nat
  salt : Option String
deriving Repr, DecidableEq, Inhabited

/-- Model of `this.data` — the persisted root object. -/
structure VaultData where
  version : Nat
  secrets : List Secret
  metadata : VaultMetadata
deriving Repr, DecidableEq, Inhabited

/-- The vault engine state: in-memory data, held key, lock flag, and the
contents of the backing file (`none` = file does not exist). -/
structure VaultState where
  data : VaultData
  encryptionKey : Option String
  isUnlocked : Bool
  file : Option VaultData
deriving Repr, DecidableEq, Inhabited

/-- The failure conditions thrown by the vault engine. -/
inductive VaultError where
  | locked
  | notFound
  | noVault
deriving Repr, DecidableEq

/-- A record with the `value` field stripped
(`const { value, ...meta } = secret`). -/
structure SecretMeta where
  id : String
  name : String
  «type» : String
  valueHash : String
  createdAt : Nat
  updatedAt : Nat
  expiresAt : Option Nat
  metadata : List (String × String)
  tags : List String
  notes : String
deriving Repr, DecidableEq, Inhabited

/-- Caller input to `addSecret`. -/
structure SecretData where
  name : String
  «type» : Option String
  value : String
  expiresAt : Option Nat
  metadata : Option (List (String × String))
  tags : Option (List String)
  notes : Option String
deriving Repr, DecidableEq, Inhabited

/-- What `addSecret` returns (the raw value is echoed once). -/
structure AddResult where
  id : String
  name : String
  «type» : String
  value : String
  expiresAt : Option Nat
deriving Repr, DecidableEq, Inhabited

/-- Caller input to `updateSecret`.  The outer `Option` is presence of the
field in the `updates` object; for `expiresAt` the inner `Option` is the
JS `null` (the code checks `!== undefined`, so present-null clears it). -/
structure SecretUpdates where
  name : Option String
  «type» : Option String
  value : Option String
  expiresAt : Option (Option Nat)
  metadata : Option (List (String × String))
  tags : Option (List String)
  notes : Option String
deriving Repr, DecidableEq, Inhabited

/-- The all-absent `updates` object. -/
def emptyUpdates : SecretUpdates :=
  { name := none, «type» := none, value := none, expiresAt := none,
    metadata := none, tags := none, notes := none }

/-- JS truthiness of an optional string (`undefined`, `null` and `""` are
falsy). -/
def truthyStr (o : Option String) : Bool := o.getD "" ≠ ""

/-- JS `x || d` on optional strings (`secretData.type || 'generic'`). -/
def jsOrStr (o : Option String) (d : String) : String :=
  if truthyStr o then o.getD "" else d

/-- JS shallow spread-merge `{ ...a, ...b }`: keys of `a` in order with
values overridden by `b` where present, then the new keys of `b`. -/
def mergeMeta (a b : List (String × String)) : List (String × String) :=
  a.map (fun p =>
    match b.find? (fun q => q.1 == p.1) with
    | some q => (p.1, q.2)
    | none => p) ++
  b.filter (fun q => a.all (fun p => p.1 != q.1))

/-- JS `s.includes(q)`: `q` occurs contiguously in `s`. -/
def strIncludes (s q : String) : Bool := decide (q.toList <:+: s.toList)

/-- Model of `const ... = secret; return meta` (drop the value field). -/
def stripValue (s : Secret) : SecretMeta :=
  { id := s.id, name := s.name, «type» := s.«type», valueHash := s.valueHash,
    createdAt := s.createdAt, updatedAt := s.updatedAt,
    expiresAt := s.expiresAt, metadata := s.metadata, tags := s.tags,
    notes := s.notes }

namespace SecretsVault

/-- Model of `this.save()`: serialize `this.data` to the backing file. -/
def save (s : VaultState) : VaultState := { s with file := some s.data }

/-- Model of the `_ensureUnlocked` gate. -/
def ensureUnlocked (s : VaultState) : Except VaultError Unit :=
  if s.isUnlocked then Except.ok () else Except.error .locked

/-- Model of `init(passphrase)`: derive a fresh key and salt (both inputs here),
stamp metadata, persist, unlock. -/
def init (s : VaultState) (key salt : String) (now : Nat) :
    Except VaultError Unit × VaultState :=
  let data' : VaultData := { s.data with
    metadata := { createdAt := some now, updatedAt := some now, salt := some salt } }
  (Except.ok (),
   { save { s with data := data', encryptionKey := some key } with isUnlocked := true })

/-- Model of `unlock(passphrase)`: requires the backing file, loads it, re-derives
the key from the stored salt (the derived key is the input `key`). -/
def unlock (s : VaultState) (key : String) :
    Except VaultError Unit × VaultState :=
  match s.file with
  | none => (Except.error .noVault, s)
  | some d => (Except.ok (),
      { s with data := d, encryptionKey := some key, isUnlocked := true })

/-- Model of `lock()`: drop the key and the unlocked flag; always succeeds, no
write. -/
def lock (s : VaultState) : Except VaultError Unit × VaultState :=
  (Except.ok (), { s with encryptionKey := none, isUnlocked := false })

/-- Model of `addSecret(secretData)`: gate, build the record (fresh id and this
call's ciphertext draw are inputs), append, stamp vault metadata, save. -/
def addSecret (s : VaultState) (secretData : SecretData) (newId : String)
    (encryptFn hashFn : String → String) (now : Nat) :
    Except VaultError AddResult × VaultState :=
  match ensureUnlocked s with
  | .error e => (.error e, s)
  | .ok _ =>
    let secret : Secret :=
      { id := newId
        name := secretData.name
        «type» := jsOrStr secretData.«type» "generic"
        value := encryptFn secretData.value
        valueHash := hashFn secretData.value
        createdAt := now
        updatedAt := now
        expiresAt := secretData.expiresAt
        metadata := secretData.metadata.getD []
        tags := secretData.tags.getD []
        notes := secretData.notes.getD "" }
    let data' : VaultData := { s.data with
      secrets := s.data.secrets ++ [secret]
      metadata := { s.data.metadata with updatedAt := some now } }
    (.ok { id := secret.id, name := secret.name, «type» := secret.«type»,
           value := secretData.value, expiresAt := secret.expiresAt },
     save { s with data := data' })

/-- Model of `getSecret(id)`: gate, find, decrypt the value on read. -/
def getSecret (s : VaultState) (id : String) (decryptFn : String → String) :
    Except VaultError Secret × VaultState :=
  match ensureUnlocked s with
  | .error e => (.error e, s)
  | .ok _ =>
    match s.data.secrets.find? (fun sec => sec.id == id) with
    | none => (.error .notFound, s)
    | some sec => (.ok { sec with value := decryptFn sec.value }, s)

/-- Model of `getSecretMeta(id)`: gate, find, strip the value. -/
def getSecretMeta (s : VaultState) (id : String) :
    Except VaultError SecretMeta × VaultState :=
  match ensureUnlocked s with
  | .error e => (.error e, s)
  | .ok _ =>
    match s.data.secrets.find? (fun sec => sec.id == id) with
    | none => (.error .notFound, s)
    | some sec => (.ok (stripValue sec), s)

/-- Model of `listSecrets()`. -/
def listSecrets (s : VaultState) :
    Except VaultError (List SecretMeta) × VaultState :=
  match ensureUnlocked s with
  | .error e => (.error e, s)
  | .ok _ => (.ok (s.data.secrets.map stripValue), s)

/-- The field-by-field body of `updateSecret` (the chain of `if` guards on
the mutable record); note the JS truthiness checks on `name`, `type`,
`value`, and the `!== undefined` checks on `expiresAt` and `notes`. -/
def applyUpdates (u : SecretUpdates) (encryptFn hashFn : String → String)
    (now : Nat) (sec0 : Secret) : Secret :=
  let sec := if truthyStr u.name then { sec0 with name := u.name.getD "" } else sec0
  let sec := if truthyStr u.«type» then { sec with «type» := u.«type».getD "" } else sec
  let sec := if truthyStr u.value then
      { sec with value := encryptFn (u.value.getD "")
                 valueHash := hashFn (u.value.getD "") } else sec
  let sec := match u.expiresAt with
    | some e => { sec with expiresAt := e }
    | none => sec
  let sec := match u.metadata with
    | some m => { sec with metadata := mergeMeta sec.metadata m }
    | none => sec
  let sec := match u.tags with
    | some t => { sec with tags := t }
    | none => sec
  let sec := match u.notes with
    | some n => { sec with notes := n }
    | none => sec
  { sec with updatedAt := now }

/-- Model of `updateSecret(id, updates)`: gate, locate, apply field updates, stamp
both timestamps, save. -/
def updateSecret (s : VaultState) (id : String) (u : SecretUpdates)
    (encryptFn hashFn : String → String) (now : Nat) :
    Except VaultError Unit × VaultState :=
  match ensureUnlocked s with
  | .error e => (.error e, s)
  | .ok _ =>
    match s.data.secrets.findIdx? (fun sec => sec.id == id) with
    | none => (.error .notFound, s)
    | some i =>
      let old := s.data.secrets.getD i default
      let data' : VaultData := { s.data with
        secrets := s.data.secrets.set i (applyUpdates u encryptFn hashFn now old)
        metadata := { s.data.metadata with updatedAt := some now } }
      (.ok (), save { s with data := data' })

/-- Model of `deleteSecret(id)`: gate, locate, splice out, stamp, save. -/
def deleteSecret (s : VaultState) (id : String) (now : Nat) :
    Except VaultError Unit × VaultState :=
  match ensureUnlocked s with
  | .error e => (.error e, s)
  | .ok _ =>
    match s.data.secrets.findIdx? (fun sec => sec.id == id) with
    | none => (.error .notFound, s)
    | some i =>
      let data' : VaultData := { s.data with
        secrets := s.data.secrets.eraseIdx i
        metadata := { s.data.metadata with updatedAt := some now } }
      (.ok (), save { s with data := data' })

/-- The match predicate of `searchSecrets` on one record (against the
lower-cased query). -/
def searchMatch (q : String) (sec : Secret) : Bool :=
  strIncludes sec.name.toLower q || strIncludes sec.«type».toLower q ||
  sec.tags.any (fun tag => strIncludes tag.toLower q)

/-- Model of `searchSecrets(query)`: gate, filter case-insensitively on name, type
and tags, strip values. -/
def searchSecrets (s : VaultState) (query : String) :
    Except VaultError (List SecretMeta) × VaultState :=
  match ensureUnlocked s with
  | .error e => (.error e, s)
  | .ok _ =>
    let q := query.toLower
    (.ok ((s.data.secrets.filter (searchMatch q)).map stripValue), s)

/-- Model of `getSecretsByType(type)`. -/
def getSecretsByType (s : VaultState) (t : String) :
    Except VaultError (List SecretMeta) × VaultState :=
  match ensureUnlocked s with
  | .error e => (.error e, s)
  | .ok _ =>
    (.ok ((s.data.secrets.filter (fun sec => sec.«type» == t)).map stripValue), s)

/-- Model of `getExpiredSecrets()`: gate, keep records with a set `expiresAt` not
after `now`, strip values. -/
def getExpiredSecrets (s : VaultState) (now : Nat) :
    Except VaultError (List SecretMeta) × VaultState :=
  match ensureUnlocked s with
  | .error e => (.error e, s)
  | .ok _ =>
    (.ok ((s.data.secrets.filter (fun sec =>
        match sec.expiresAt with
        | none => false
        | some e => decide (e ≤ now))).map stripValue), s)

/-- Model of `exportVault()`: gate, serialize the whole data object (no state
change, no save). -/
def exportVault (s : VaultState) :
    Except VaultError VaultData × VaultState :=
  match ensureUnlocked s with
  | .error e => (.error e, s)
  | .ok _ => (.ok s.data, s)

/-- Model of `importVault(data)`: gate, wholesale-replace the in-memory data with
the deserialized blob, save.  No validation of any kind. -/
def importVault (s : VaultState) (d : VaultData) :
    Except VaultError Unit × VaultState :=
  match ensureUnlocked s with
  | .error e => (.error e, s)
  | .ok _ => (.ok (), save { s with data := d })

end SecretsVault

/-! ## Concrete sample states for witnesses -/

/-- A concrete stored record. -/
def sampleSecret : Secret :=
  { id := "a1", name := "db", «type» := "password", value := "ct0",
    valueHash := "h0", createdAt := 5, updatedAt := 5, expiresAt := some 10,
    metadata := [("env", "prod")], tags := ["infra"], notes := "n" }

/-- A concrete vault data object holding `sampleSecret`. -/
def sampleData : VaultData :=
  { version := 1, secrets := [sampleSecret],
    metadata := { createdAt := some 5, updatedAt := some 5, salt := some "aa" } }

/-- A locked vault over `sampleData`. -/
def lockedState : VaultState :=
  { data := sampleData, encryptionKey := none, isUnlocked := false,
    file := some sampleData }

/-- An unlocked vault over `sampleData`. -/
def unlockedState : VaultState :=
  { data := sampleData, encryptionKey := some "key", isUnlocked := true,
    file := some sampleData }

/-- A successful `findIdx?` is within bounds. -/
theorem findIdx?_lt_length {α : Type} {xs : List α} {p : α → Bool} {i : Nat}
    (h : xs.findIdx? p = some i) : i < xs.length :=
  (List.findIdx?_eq_some_iff_findIdx_eq.mp h).1

/-! ## Claims -/

/-- C2: while the vault is not unlocked (`Locked` or `Uninitialized`),
every data operation — addSecret, getSecret, getSecretMeta, listSecrets,
updateSecret, deleteSecret, searchSecrets, getSecretsByType,
getExpiredSecrets, exportVault, importVault — fails with the vault-locked
condition and returns the state (in-memory data, key, lock flag, persisted
file) entirely unchanged. -/
theorem claim_c2_locked_ops_fail_no_side_effect
    (s : VaultState) (h : s.isUnlocked = false)
    (secretData : SecretData) (newId : String)
    (encryptFn hashFn decryptFn : String → String) (now : Nat)
    (id query t : String) (u : SecretUpdates) (d : VaultData) :
    SecretsVault.addSecret s secretData newId encryptFn hashFn now
      = (.error .locked, s) ∧
    SecretsVault.getSecret s id decryptFn = (.error .locked, s) ∧
    SecretsVault.getSecretMeta s id = (.error .locked, s) ∧
    SecretsVault.listSecrets s = (.error .locked, s) ∧
    SecretsVault.updateSecret s id u encryptFn hashFn now = (.error .locked, s) ∧
    SecretsVault.deleteSecret s id now = (.error .locked, s) ∧
    SecretsVault.searchSecrets s query = (.error .locked, s) ∧
    SecretsVault.getSecretsByType s t = (.error .locked, s) ∧
    SecretsVault.getExpiredSecrets s now = (.error .locked, s) ∧
    SecretsVault.exportVault s = (.error .locked, s) ∧
    SecretsVault.importVault s d = (.error .locked, s) := by
  have hg : SecretsVault.ensureUnlocked s = .error .locked := by
    simp [SecretsVault.ensureUnlocked, h]
  refine ⟨?_, ?_, ?_, ?_, ?_, ?_, ?_, ?_, ?_, ?_, ?_⟩ <;>
    simp [SecretsVault.addSecret, SecretsVault.getSecret,
      SecretsVault.getSecretMeta, SecretsVault.listSecrets,
      SecretsVault.updateSecret, SecretsVault.deleteSecret,
      SecretsVault.searchSecrets, SecretsVault.getSecretsByType,
      SecretsVault.getExpiredSecrets, SecretsVault.exportVault,
      SecretsVault.importVault, hg]

/-- Witness for C2 on the concrete locked state. -/
theorem claim_c2_locked_ops_fail_no_side_effect_witness :
    SecretsVault.addSecret lockedState
        { name := "n", «type» := none, value := "v", expiresAt := none,
          metadata := none, tags := none, notes := none }
        "id9" (fun v => v) (fun v => v) 7
      = (.error .locked, lockedState) ∧
    SecretsVault.getSecret lockedState "a1" (fun v => v)
      = (.error .locked, lockedState) ∧
    SecretsVault.getSecretMeta lockedState "a1" = (.error .locked, lockedState) ∧
    SecretsVault.listSecrets lockedState = (.error .locked, lockedState) ∧
    SecretsVault.updateSecret lockedState "a1" emptyUpdates
        (fun v => v) (fun v => v) 7 = (.error .locked, lockedState) ∧
    SecretsVault.deleteSecret lockedState "a1" 7 = (.error .locked, lockedState) ∧
    SecretsVault.searchSecrets lockedState "db" = (.error .locked, lockedState) ∧
    SecretsVault.getSecretsByType lockedState "password"
      = (.error .locked, lockedState) ∧
    SecretsVault.getExpiredSecrets lockedState 7 = (.error .locked, lockedState) ∧
    SecretsVault.exportVault lockedState = (.error .locked, lockedState) ∧
    SecretsVault.importVault lockedState sampleData
      = (.error .locked, lockedState) :=
  claim_c2_locked_ops_fail_no_side_effect lockedState rfl
    { name := "n", «type» := none, value := "v", expiresAt := none,
      metadata := none, tags := none, notes := none }
    "id9" (fun v => v) (fun v => v) (fun v => v) 7 "a1" "db" "password"
    emptyUpdates sampleData

/-- A blob identical to `sampleData` except for a different salt. -/
def importedData : VaultData :=
  { sampleData with
    metadata := { sampleData.metadata with salt := some "bb" } }

/-- C3 counterexample: `importVault` wholesale-replaces `this.data`
(no validation), so importing a blob whose `metadata.salt` differs changes
the vault salt — the claim that no operation after `init` ever changes the
salt is false at this concrete input. -/
theorem claim_c3_counterexample :
    unlockedState.data.metadata.salt = some "aa" ∧
    (SecretsVault.importVault unlockedState importedData).2.data.metadata.salt
      = some "bb" :=
  ⟨rfl, rfl⟩

/-- C3 amended: the salt is set by `init` and preserved by every other
vault operation — addSecret, getSecret, getSecretMeta, listSecrets,
updateSecret, deleteSecret, searchSecrets, getSecretsByType,
getExpiredSecrets, exportVault, lock — in any lock state; the one
exception is `importVault`, which (when unlocked) replaces the whole data
object, salt included, with the imported blob. -/
theorem claim_c3_salt_fixed_except_import
    (s : VaultState) (key salt : String) (now : Nat)
    (secretData : SecretData) (newId : String)
    (encryptFn hashFn decryptFn : String → String)
    (id query t : String) (u : SecretUpdates) (d : VaultData) :
    (SecretsVault.init s key salt now).2.data.metadata.salt = some salt ∧
    (SecretsVault.addSecret s secretData newId encryptFn hashFn now).2.data.metadata.salt
      = s.data.metadata.salt ∧
    (SecretsVault.getSecret s id decryptFn).2.data.metadata.salt
      = s.data.metadata.salt ∧
    (SecretsVault.getSecretMeta s id).2.data.metadata.salt
      = s.data.metadata.salt ∧
    (SecretsVault.listSecrets s).2.data.metadata.salt = s.data.metadata.salt ∧
    (SecretsVault.updateSecret s id u encryptFn hashFn now).2.data.metadata.salt
      = s.data.metadata.salt ∧
    (SecretsVault.deleteSecret s id now).2.data.metadata.salt
      = s.data.metadata.salt ∧
    (SecretsVault.searchSecrets s query).2.data.metadata.salt
      = s.data.metadata.salt ∧
    (SecretsVault.getSecretsByType s t).2.data.metadata.salt
      = s.data.metadata.salt ∧
    (SecretsVault.getExpiredSecrets s now).2.data.metadata.salt
      = s.data.metadata.salt ∧
    (SecretsVault.exportVault s).2.data.metadata.salt = s.data.metadata.salt ∧
    (SecretsVault.lock s).2.data.metadata.salt = s.data.metadata.salt ∧
    (SecretsVault.importVault s d).2.data.metadata.salt
      = (if s.isUnlocked then d.metadata.salt else s.data.metadata.salt) := by
  refine ⟨?_, ?_, ?_, ?_, ?_, ?_, ?_, ?_, ?_, ?_, ?_, ?_, ?_⟩
  · simp [SecretsVault.init, SecretsVault.save]
  · cases hu : s.isUnlocked <;>
      simp [SecretsVault.addSecret, SecretsVault.ensureUnlocked, hu,
        SecretsVault.save]
  · cases hu : s.isUnlocked <;>
      (simp [SecretsVault.getSecret, SecretsVault.ensureUnlocked, hu];
       try (split <;> simp))
  · cases hu : s.isUnlocked <;>
      (simp [SecretsVault.getSecretMeta, SecretsVault.ensureUnlocked, hu];
       try (split <;> simp))
  · cases hu : s.isUnlocked <;>
      simp [SecretsVault.listSecrets, SecretsVault.ensureUnlocked, hu]
  · cases hu : s.isUnlocked <;>
      (simp [SecretsVault.updateSecret, SecretsVault.ensureUnlocked, hu];
       try (split <;> simp [SecretsVault.save]))
  · cases hu : s.isUnlocked <;>
      (simp [SecretsVault.deleteSecret, SecretsVault.ensureUnlocked, hu];
       try (split <;> simp [SecretsVault.save]))
  · cases hu : s.isUnlocked <;>
      simp [SecretsVault.searchSecrets, SecretsVault.ensureUnlocked, hu]
  · cases hu : s.isUnlocked <;>
      simp [SecretsVault.getSecretsByType, SecretsVault.ensureUnlocked, hu]
  · cases hu : s.isUnlocked <;>
      simp [SecretsVault.getExpiredSecrets, SecretsVault.ensureUnlocked, hu]
  · cases hu : s.isUnlocked <;>
      simp [SecretsVault.exportVault, SecretsVault.ensureUnlocked, hu]
  · simp [SecretsVault.lock]
  · cases hu : s.isUnlocked <;>
      simp [SecretsVault.importVault, SecretsVault.ensureUnlocked, hu,
        SecretsVault.save]

/-- The record produced by one `updateSecret` pass, written field by
field (used to state the update-semantics claims). -/
def updatedRecord (u : SecretUpdates) (encryptFn hashFn : String → String)
    (now : Nat) (old : Secret) : Secret :=
  { id := old.id
    name := if truthyStr u.name then u.name.getD "" else old.name
    «type» := if truthyStr u.«type» then u.«type».getD "" else old.«type»
    value := if truthyStr u.value then encryptFn (u.value.getD "") else old.value
    valueHash := if truthyStr u.value then hashFn (u.value.getD "") else old.valueHash
    createdAt := old.createdAt
    updatedAt := now
    expiresAt := match u.expiresAt with | some e => e | none => old.expiresAt
    metadata := match u.metadata with
      | some m => mergeMeta old.metadata m
      | none => old.metadata
    tags := u.tags.getD old.tags
    notes := u.notes.getD old.notes }

/-- The update body equals its field-by-field description. -/
theorem applyUpdates_eq_updatedRecord (u : SecretUpdates)
    (encryptFn hashFn : String → String) (now : Nat) (old : Secret) :
    SecretsVault.applyUpdates u encryptFn hashFn now old
      = updatedRecord u encryptFn hashFn now old := by
  unfold SecretsVault.applyUpdates updatedRecord
  cases hn : truthyStr u.name <;> cases ht : truthyStr u.«type» <;>
    cases hv : truthyStr u.value <;> cases u.expiresAt <;>
    cases u.metadata <;> cases u.tags <;> cases u.notes <;> simp

/-- C4 counterexample: the claim says every field present in `updates` is
written; but `updateSecret` guards `name`, `type` and `value` with JS
truthiness, so `updates = { name: "" }` (present) is silently ignored:
the call succeeds and the stored name stays `"db"`, not `""`. -/
theorem claim_c4_counterexample :
    (SecretsVault.updateSecret unlockedState "a1"
        { emptyUpdates with name := some "" } (fun v => v) (fun v => v) 9).1
      = .ok () ∧
    ((SecretsVault.updateSecret unlockedState "a1"
        { emptyUpdates with name := some "" } (fun v => v) (fun v => v) 9).2.data.secrets.getD
        0 default).name = "db" := by
  constructor <;> rfl

/-- C4 amended: for an existing record id, `updateSecret` applies exactly
the fields present in `updates`, except that `name`, `type` and `value`
present with an empty-string value are ignored (JS truthiness guards);
a present (and non-empty) `value` is re-encrypted and re-hashed;
`metadata` is shallow-merged into the existing metadata; `tags` are
replaced wholesale when present; `expiresAt` and `notes` are applied
whenever present, even when null or empty; absent fields are unchanged. -/
theorem claim_c4_update_applies_truthy_fields
    (s : VaultState) (id : String) (u : SecretUpdates)
    (encryptFn hashFn : String → String) (now : Nat) (i : Nat)
    (hu : s.isUnlocked = true)
    (hidx : s.data.secrets.findIdx? (fun sec => sec.id == id) = some i) :
    (SecretsVault.updateSecret s id u encryptFn hashFn now).1 = .ok () ∧
    (SecretsVault.updateSecret s id u encryptFn hashFn now).2.data.secrets
      = s.data.secrets.set i
          (updatedRecord u encryptFn hashFn now (s.data.secrets.getD i default)) := by
  unfold SecretsVault.updateSecret
  simp [SecretsVault.ensureUnlocked, hu, hidx, SecretsVault.save,
    applyUpdates_eq_updatedRecord]

/-- Witness for the amended C4 at a concrete state and updates object. -/
theorem claim_c4_update_applies_truthy_fields_witness :
    (SecretsVault.updateSecret unlockedState "a1"
        { name := some "svc", «type» := none, value := some "newv",
          expiresAt := some none, metadata := some [("env", "dev")],
          tags := some [], notes := some "" }
        (fun v => String.append v "!") (fun v => String.append v "?") 9).1
      = .ok () ∧
    (SecretsVault.updateSecret unlockedState "a1"
        { name := some "svc", «type» := none, value := some "newv",
          expiresAt := some none, metadata := some [("env", "dev")],
          tags := some [], notes := some "" }
        (fun v => String.append v "!") (fun v => String.append v "?") 9).2.data.secrets
      = unlockedState.data.secrets.set 0
          (updatedRecord
            { name := some "svc", «type» := none, value := some "newv",
              expiresAt := some none, metadata := some [("env", "dev")],
              tags := some [], notes := some "" }
            (fun v => String.append v "!") (fun v => String.append v "?") 9
            (unlockedState.data.secrets.getD 0 default)) :=
  claim_c4_update_applies_truthy_fields unlockedState "a1"
    { name := some "svc", «type» := none, value := some "newv",
      expiresAt := some none, metadata := some [("env", "dev")],
      tags := some [], notes := some "" }
    (fun v => String.append v "!") (fun v => String.append v "?") 9 0 rfl rfl

/-- C6: on an unlocked vault, `getExpiredSecrets` succeeds without state
change and returns exactly the value-stripped records whose `expiresAt` is
set and not after the call time; a record with no `expiresAt` never
contributes, and one whose `expiresAt` is past always does. -/
theorem claim_c6_expired_exactly_past_expiry
    (s : VaultState) (now : Nat) (hu : s.isUnlocked = true) :
    ∃ l, SecretsVault.getExpiredSecrets s now = (.ok l, s) ∧
      ∀ m, m ∈ l ↔ ∃ sec, sec ∈ s.data.secrets ∧
        (∃ e, sec.expiresAt = some e ∧ e ≤ now) ∧ m = stripValue sec := by
  refine ⟨(s.data.secrets.filter (fun sec =>
      match sec.expiresAt with
      | none => false
      | some e => decide (e ≤ now))).map stripValue,
    by simp [SecretsVault.getExpiredSecrets, SecretsVault.ensureUnlocked, hu], ?_⟩
  intro m
  simp only [List.mem_map, List.mem_filter]
  constructor
  · rintro ⟨sec, ⟨hmem, hpred⟩, rfl⟩
    refine ⟨sec, hmem, ?_, rfl⟩
    cases hE : sec.expiresAt with
    | none => rw [hE] at hpred; simp at hpred
    | some e =>
        rw [hE] at hpred
        exact ⟨e, rfl, by simpa using hpred⟩
  · rintro ⟨sec, hmem, ⟨e, hE, hle⟩, rfl⟩
    exact ⟨sec, ⟨hmem, by rw [hE]; simpa⟩, rfl⟩

/-- Witness for C6 on the concrete unlocked state at time 10. -/
theorem claim_c6_expired_exactly_past_expiry_witness :
    ∃ l, SecretsVault.getExpiredSecrets unlockedState 10 = (.ok l, unlockedState) ∧
      ∀ m, m ∈ l ↔ ∃ sec, sec ∈ unlockedState.data.secrets ∧
        (∃ e, sec.expiresAt = some e ∧ e ≤ 10) ∧ m = stripValue sec :=
  claim_c6_expired_exactly_past_expiry unlockedState 10 rfl

/-- C7: on an unlocked vault, `searchSecrets` succeeds without state
change and returns exactly the value-stripped records whose name, type or
some tag contains the query as a case-insensitive substring. -/
theorem claim_c7_search_case_insensitive_name_type_tags
    (s : VaultState) (query : String) (hu : s.isUnlocked = true) :
    ∃ l, SecretsVault.searchSecrets s query = (.ok l, s) ∧
      ∀ m, m ∈ l ↔ ∃ sec, sec ∈ s.data.secrets ∧
        (strIncludes sec.name.toLower query.toLower = true ∨
         strIncludes sec.«type».toLower query.toLower = true ∨
         ∃ tag, tag ∈ sec.tags ∧ strIncludes tag.toLower query.toLower = true) ∧
        m = stripValue sec := by
  refine ⟨(s.data.secrets.filter (SecretsVault.searchMatch query.toLower)).map stripValue,
    by simp [SecretsVault.searchSecrets, SecretsVault.ensureUnlocked, hu], ?_⟩
  intro m
  simp only [List.mem_map, List.mem_filter, SecretsVault.searchMatch,
    Bool.or_eq_true, List.any_eq_true]
  constructor
  · rintro ⟨sec, ⟨hmem, hpred⟩, rfl⟩
    exact ⟨sec, hmem, by tauto, rfl⟩
  · rintro ⟨sec, hmem, hpred, rfl⟩
    exact ⟨sec, ⟨hmem, by tauto⟩, rfl⟩

/-- Witness for C7 on the concrete unlocked state with query `"PASS"`. -/
theorem claim_c7_search_case_insensitive_name_type_tags_witness :
    ∃ l, SecretsVault.searchSecrets unlockedState "PASS" = (.ok l, unlockedState) ∧
      ∀ m, m ∈ l ↔ ∃ sec, sec ∈ unlockedState.data.secrets ∧
        (strIncludes sec.name.toLower (String.toLower "PASS") = true ∨
         strIncludes sec.«type».toLower (String.toLower "PASS") = true ∨
         ∃ tag, tag ∈ sec.tags ∧
           strIncludes tag.toLower (String.toLower "PASS") = true) ∧
        m = stripValue sec :=
  claim_c7_search_case_insensitive_name_type_tags unlockedState "PASS" rfl

/-- C8: for an existing record, `updateSecret` with an updates object that
does not contain `value` leaves both the stored ciphertext and the
`valueHash` of that record unchanged, whatever else the updates contain. -/
theorem claim_c8_no_value_update_keeps_hash
    (s : VaultState) (id : String) (u : SecretUpdates)
    (encryptFn hashFn : String → String) (now : Nat) (i : Nat)
    (hu : s.isUnlocked = true)
    (hidx : s.data.secrets.findIdx? (fun sec => sec.id == id) = some i)
    (hv : u.value = none) :
    ((SecretsVault.updateSecret s id u encryptFn hashFn now).2.data.secrets.getD
        i default).value = (s.data.secrets.getD i default).value ∧
    ((SecretsVault.updateSecret s id u encryptFn hashFn now).2.data.secrets.getD
        i default).valueHash = (s.data.secrets.getD i default).valueHash := by
  have hlen : i < s.data.secrets.length := findIdx?_lt_length hidx
  unfold SecretsVault.updateSecret
  simp only [SecretsVault.ensureUnlocked, hu, if_true, hidx,
    SecretsVault.save, applyUpdates_eq_updatedRecord]
  rw [List.getD_eq_getElem _ _ (by simpa using hlen),
    List.getElem_set_self (by simpa using hlen)]
  simp [updatedRecord, truthyStr, hv]

/-- Witness for C8: a non-value update on the concrete unlocked state. -/
theorem claim_c8_no_value_update_keeps_hash_witness :
    ((SecretsVault.updateSecret unlockedState "a1"
        { emptyUpdates with notes := some "z" } (fun v => v) (fun v => v)
        9).2.data.secrets.getD 0 default).value
      = (unlockedState.data.secrets.getD 0 default).value ∧
    ((SecretsVault.updateSecret unlockedState "a1"
        { emptyUpdates with notes := some "z" } (fun v => v) (fun v => v)
        9).2.data.secrets.getD 0 default).valueHash
      = (unlockedState.data.secrets.getD 0 default).valueHash :=
  claim_c8_no_value_update_keeps_hash unlockedState "a1"
    { emptyUpdates with notes := some "z" } (fun v => v) (fun v => v) 9 0
    rfl rfl rfl

/-- C9: on an unlocked vault, `importVault` applied to the blob produced
by `exportVault` of that same state keeps the in-memory vault data —
version, secrets with ciphertexts and hashes, and metadata including the
salt — equal to what it was before. -/
theorem claim_c9_export_import_identity
    (s : VaultState) (hu : s.isUnlocked = true) :
    ∃ blob, SecretsVault.exportVault s = (.ok blob, s) ∧
      (SecretsVault.importVault s blob).1 = .ok () ∧
      (SecretsVault.importVault s blob).2.data = s.data := by
  refine ⟨s.data, ?_, ?_, ?_⟩ <;>
    simp [SecretsVault.exportVault, SecretsVault.importVault,
      SecretsVault.ensureUnlocked, hu, SecretsVault.save]

/-- Witness for C9 on the concrete unlocked state. -/
theorem claim_c9_export_import_identity_witness :
    ∃ blob, SecretsVault.exportVault unlockedState = (.ok blob, unlockedState) ∧
      (SecretsVault.importVault unlockedState blob).1 = .ok () ∧
      (SecretsVault.importVault unlockedState blob).2.data
        = unlockedState.data :=
  claim_c9_export_import_identity unlockedState rfl

/-- C10: for an existing record, `updateSecret` with the empty updates
object succeeds, replaces the record by itself with only `updatedAt`
bumped to the call time, bumps the vault `metadata.updatedAt` (leaving
`createdAt`, `salt` and `version` alone), and rewrites the backing file
with the new data. -/
theorem claim_c10_empty_update_bumps_timestamps
    (s : VaultState) (id : String) (encryptFn hashFn : String → String)
    (now : Nat) (i : Nat)
    (hu : s.isUnlocked = true)
    (hidx : s.data.secrets.findIdx? (fun sec => sec.id == id) = some i) :
    (SecretsVault.updateSecret s id emptyUpdates encryptFn hashFn now).1
      = .ok () ∧
    (SecretsVault.updateSecret s id emptyUpdates encryptFn hashFn now).2.data.secrets
      = s.data.secrets.set i
          { s.data.secrets.getD i default with updatedAt := now } ∧
    (SecretsVault.updateSecret s id emptyUpdates encryptFn hashFn now).2.data.metadata.updatedAt
      = some now ∧
    (SecretsVault.updateSecret s id emptyUpdates encryptFn hashFn now).2.data.metadata.createdAt
      = s.data.metadata.createdAt ∧
    (SecretsVault.updateSecret s id emptyUpdates encryptFn hashFn now).2.data.metadata.salt
      = s.data.metadata.salt ∧
    (SecretsVault.updateSecret s id emptyUpdates encryptFn hashFn now).2.data.version
      = s.data.version ∧
    (SecretsVault.updateSecret s id emptyUpdates encryptFn hashFn now).2.file
      = some (SecretsVault.updateSecret s id emptyUpdates encryptFn hashFn now).2.data := by
  unfold SecretsVault.updateSecret
  simp [SecretsVault.ensureUnlocked, hu, hidx, SecretsVault.save,
    applyUpdates_eq_updatedRecord, updatedRecord, emptyUpdates, truthyStr]

/-- Witness for C10 on the concrete unlocked state. -/
theorem claim_c10_empty_update_bumps_timestamps_witness :
    (SecretsVault.updateSecret unlockedState "a1" emptyUpdates
        (fun v => v) (fun v => v) 9).1 = .ok () ∧
    (SecretsVault.updateSecret unlockedState "a1" emptyUpdates
        (fun v => v) (fun v => v) 9).2.data.secrets
      = unlockedState.data.secrets.set 0
          { unlockedState.data.secrets.getD 0 default with updatedAt := 9 } ∧
    (SecretsVault.updateSecret unlockedState "a1" emptyUpdates
        (fun v => v) (fun v => v) 9).2.data.metadata.updatedAt = some 9 ∧
    (SecretsVault.updateSecret unlockedState "a1" emptyUpdates
        (fun v => v) (fun v => v) 9).2.data.metadata.createdAt
      = unlockedState.data.metadata.createdAt ∧
    (SecretsVault.updateSecret unlockedState "a1" emptyUpdates
        (fun v => v) (fun v => v) 9).2.data.metadata.salt
      = unlockedState.data.metadata.salt ∧
    (SecretsVault.updateSecret unlockedState "a1" emptyUpdates
        (fun v => v) (fun v => v) 9).2.data.version
      = unlockedState.data.version ∧
    (SecretsVault.updateSecret unlockedState "a1" emptyUpdates
        (fun v => v) (fun v => v) 9).2.file
      = some (SecretsVault.updateSecret unlockedState "a1" emptyUpdates
          (fun v => v) (fun v => v) 9).2.data :=
  claim_c10_empty_update_bumps_timestamps unlockedState "a1"
    (fun v => v) (fun v => v) 9 0 rfl rfl
